import Mathlib

/-!
Shallow embedding of the authentication subsystem of the fastapi-project
repository: password hashing (`src/core/security.py` top-level functions over
passlib's bcrypt CryptContext), the symmetric JWT codec and the token issuer
(`src/core/security.py`, classes `JWTStrategy` / `SymmetricJWT` over
python-jose), the request-time identity resolution pipeline
(`src/dependencies/auth.py`) and the auth service (`src/services/auth_service.py`).

Conventions of the embedding:
- machine time is an integer count of unix seconds (`now : Int`), the
  granularity at which python-jose compares `exp` against the clock;
- a JWT string is modelled by its parse: either a token signed over a payload
  with some key, or a malformed/tampered string that verifies under no key;
- a bcrypt digest string is modelled by its parse: either an identifiable
  bcrypt record carrying its embedded salt, or an unidentifiable string;
  the bcrypt compression function itself is abstracted as a parameter
  `mac : String → String → String` (salt → password → digest body) — the
  theorems hold for every choice of `mac`;
- Python exceptions become an explicit error type `Err`; the HTTP status each
  class carries is the one the repository's exception classes
  (`src/core/exceptions.py`) and error-handler middleware
  (`src/middleware/error_handler.py`) assign;
- the database collaborator (`UserService.get_by_id` / `get_by_email`) is a
  lookup function `Int → Option User` / `String → Option User`; `get_by_id`
  raising `NotFoundError` on a miss is reflected at each call site.
-/

namespace App

/-- JWT payload dict. The claims this system writes are `sub` (string-encoded
subject id), `exp` (unix seconds) and `type` (`"access"` or `"refresh"`); the
fields are optional because a decoded dict need not contain them. -/
structure Payload where
  sub : Option String
  exp : Option Int
  type : Option String
deriving DecidableEq

/-- A JWT string, by its parse: either well-formed and signed with some key
over a payload, or a malformed/tampered string that verifies under no key. -/
inductive Jwt where
  | signed (payload : Payload) (key : String)
  | malformed (raw : String)
deriving DecidableEq

/-- Expiry test of python-jose's `jwt._validate_exp` with the default leeway 0
(the library source is a dependency, not vendored in the repository): a token
is expired iff `exp < now`; a payload without `exp` is never expired. -/
def joseExpired (now : Int) (p : Payload) : Bool :=
  match p.exp with
  | some e => decide (e < now)
  | none => false

/-- `SymmetricJWT.encode`: sign the payload with the shared secret key
(`jose.jwt.encode(payload, self.secret_key, algorithm=self.algorithm)`). -/
def SymmetricJWT.encode (key : String) (payload : Payload) : Jwt :=
  .signed payload key

/-- `SymmetricJWT.decode`: verify the signature with the same key and validate
expiry; any `JWTError` (bad signature, malformed token, expired) is caught and
`None` is returned. -/
def SymmetricJWT.decode (key : String) (now : Int) (t : Jwt) : Option Payload :=
  match t with
  | .signed p k =>
      if k = key then
        (if joseExpired now p then none else some p)
      else none
  | .malformed _ => none

/-- A password-digest string, by its parse under passlib's
`CryptContext(schemes=[bcrypt])`: either an identifiable bcrypt record with
its embedded salt and digest body, or a string no configured scheme
identifies. -/
inductive HashStr where
  | bcrypt (salt : String) (digest : String)
  | unidentified (raw : String)
deriving DecidableEq

/-- passlib `CryptContext.verify` (library dependency, not vendored):
identify the hash; for an identified bcrypt record recompute with the
embedded salt and compare in constant time; an unidentifiable hash string
raises `UnknownHashError` (a `ValueError`), it does not return `False`. -/
def CryptContext.verify (mac : String → String → String) (plain : String)
    (h : HashStr) : Except String Bool :=
  match h with
  | .bcrypt salt digest => .ok (digest == mac salt plain)
  | .unidentified _ => .error "hash could not be identified"

/-- passlib `CryptContext.hash`: draw a fresh random salt (passed here
explicitly as `salt`) and emit a bcrypt record embedding it. -/
def CryptContext.hash (mac : String → String → String) (salt : String)
    (pw : String) : HashStr :=
  .bcrypt salt (mac salt pw)

/-- `verify_password` (src/core/security.py): delegate to
`pwd_context.verify(plain_password, hashed_password)`. -/
def verify_password (mac : String → String → String) (plain_password : String)
    (hashed_password : HashStr) : Except String Bool :=
  CryptContext.verify mac plain_password hashed_password

/-- `get_password_hash` (src/core/security.py): delegate to
`pwd_context.hash(password)`; `salt` is the fresh salt that call draws. -/
def get_password_hash (mac : String → String → String) (salt : String)
    (password : String) : HashStr :=
  CryptContext.hash mac salt password

/-- The JWT-relevant application settings (src/core/config.py), with their
default values. -/
structure Settings where
  access_token_expire_minutes : Int := 30
  refresh_token_expire_days : Int := 7
deriving DecidableEq

/-- `JWTStrategy._build_access_payload`: Python `if expires_delta:` is a
truthiness test, so both `None` and the zero timedelta fall to the default
branch `now + timedelta(minutes=settings.access_token_expire_minutes)`.
`expires_delta` is in seconds. -/
def build_access_payload (st : Settings) (now : Int) (subject : Int)
    (expires_delta : Option Int) : Payload :=
  match expires_delta with
  | some d =>
      if d ≠ 0 then
        { sub := some (toString subject), exp := some (now + d),
          type := some "access" }
      else
        { sub := some (toString subject),
          exp := some (now + st.access_token_expire_minutes * 60),
          type := some "access" }
  | none =>
      { sub := some (toString subject),
        exp := some (now + st.access_token_expire_minutes * 60),
        type := some "access" }

/-- `JWTStrategy._build_refresh_payload`:
`now + timedelta(days=settings.refresh_token_expire_days)`. -/
def build_refresh_payload (st : Settings) (now : Int) (subject : Int) : Payload :=
  { sub := some (toString subject),
    exp := some (now + st.refresh_token_expire_days * 86400),
    type := some "refresh" }

/-- `JWTStrategy.create_access_token`: build the access payload and encode it. -/
def create_access_token (st : Settings) (key : String) (now : Int)
    (subject : Int) (expires_delta : Option Int) : Jwt :=
  SymmetricJWT.encode key (build_access_payload st now subject expires_delta)

/-- `JWTStrategy.create_refresh_token`: build the refresh payload and encode it. -/
def create_refresh_token (st : Settings) (key : String) (now : Int)
    (subject : Int) : Jwt :=
  SymmetricJWT.encode key (build_refresh_payload st now subject)

/-- User record (src/models/user.py), with the digest field held in parsed
form and the two datetime columns as unix seconds. -/
structure User where
  id : Int
  email : String
  hashed_password : HashStr
  full_name : Option String
  is_active : Bool
  is_superuser : Bool
  created_at : Int
  updated_at : Int
deriving DecidableEq

/-- Errors the auth subsystem can raise: FastAPI `HTTPException` with an
explicit status, the repository's `UnauthorizedError` (401) and
`NotFoundError` (404) from src/core/exceptions.py, and a bare Python
`ValueError` (e.g. from `int()`). -/
inductive Err where
  | httpException (status : Nat) (detail : String)
  | unauthorizedError (message : String)
  | notFoundError (resource : String)
  | valueError (message : String)
deriving DecidableEq

/-- HTTP status an error reaches the client with: `HTTPException` and the
`AppException` subclasses carry their own codes (Unauthorized 401, NotFound
404, per src/core/exceptions.py and the `AppException` handler in
src/middleware/error_handler.py); a bare `ValueError` falls to the generic
`Exception` handler, which answers 500. -/
def Err.status : Err → Nat
  | .httpException s _ => s
  | .unauthorizedError _ => 401
  | .notFoundError _ => 404
  | .valueError _ => 500

/-- Decimal digit test for `int()`. -/
def pyDigit (c : Char) : Bool :=
  '0' ≤ c && c ≤ '9'

/-- Digit run of a Python integer literal after its first digit: digits with
single underscores allowed between digits. -/
def pyDigitsVal (acc : Nat) : List Char → Option Nat
  | [] => some acc
  | '_' :: c :: cs =>
      if pyDigit c then pyDigitsVal (acc * 10 + (c.toNat - 48)) cs else none
  | c :: cs =>
      if pyDigit c then pyDigitsVal (acc * 10 + (c.toNat - 48)) cs else none

/-- Nonempty digit run of a Python integer literal (must start with a digit). -/
def pyNatLit : List Char → Option Nat
  | c :: cs => if pyDigit c then pyDigitsVal (c.toNat - 48) cs else none
  | [] => none

/-- ASCII whitespace stripped by Python's `int()` around a literal. -/
def pyWhitespace (c : Char) : Bool :=
  c = ' ' || c = '\t' || c = '\n' || c = '\r' || c = '\x0b' || c = '\x0c'

/-- Surrounding-whitespace strip of `int()`. -/
def pyStrip (cs : List Char) : List Char :=
  ((cs.dropWhile pyWhitespace).reverse.dropWhile pyWhitespace).reverse

/-- Python `int()` applied to a str: strip surrounding whitespace, optional
sign, then a decimal digit run; anything else raises `ValueError`. -/
def pythonInt (s : String) : Except String Int :=
  match pyStrip s.toList with
  | '+' :: cs =>
      match pyNatLit cs with
      | some n => .ok (n : Int)
      | none => .error ("invalid literal for int() with base 10: " ++ s)
  | '-' :: cs =>
      match pyNatLit cs with
      | some n => .ok (-(n : Int))
      | none => .error ("invalid literal for int() with base 10: " ++ s)
  | cs =>
      match pyNatLit cs with
      | some n => .ok (n : Int)
      | none => .error ("invalid literal for int() with base 10: " ++ s)

/-- `int(payload.get("sub", 0))`: when `"sub"` is absent the dict lookup
yields the integer default `0` and `int(0) = 0`; when present it is a string
and `int` parses it, raising `ValueError` on a non-integer literal. -/
def subjectId (sub : Option String) : Except String Int :=
  match sub with
  | none => .ok 0
  | some s => pythonInt s

/-- Tail of `get_current_user` once the subject id is known:
`user_service.get_by_id(user_id)` inside `try`/`except NotFoundError`, mapping
a miss to `HTTPException(401, "User not found")`, then the active-flag check. -/
def lookupActiveUser (db : Int → Option User) (uid : Int) : Except Err User :=
  match db uid with
  | none => .error (.httpException 401 "User not found")
  | some user =>
      if user.is_active = false then
        .error (.httpException 401 "Inactive user")
      else .ok user

/-- `get_current_user` (src/dependencies/auth.py): decode the bearer token;
`if not payload or payload.get("type") != "access"` raises 401 (a falsy empty
dict also fails the type test, so both disjuncts collapse to the type check);
then `user_id = int(payload.get("sub", 0))`, the guarded lookup and the
active check. -/
def get_current_user (key : String) (now : Int) (db : Int → Option User)
    (token : Jwt) : Except Err User :=
  match SymmetricJWT.decode key now token with
  | none => .error (.httpException 401 "Could not validate credentials")
  | some payload =>
      if payload.type ≠ some "access" then
        .error (.httpException 401 "Could not validate credentials")
      else
        match subjectId payload.sub with
        | .error m => .error (.valueError m)
        | .ok uid => lookupActiveUser db uid

/-- `get_current_active_superuser` (src/dependencies/auth.py): takes the user
already resolved by `get_current_user` and requires the superuser flag, else
`HTTPException(403, "Not enough permissions")`. -/
def get_current_active_superuser (current_user : User) : Except Err User :=
  if current_user.is_superuser = false then
    .error (.httpException 403 "Not enough permissions")
  else .ok current_user

/-- `AuthService.authenticate` (src/services/auth_service.py): look the user
up by email, verify the password, check the active flag; a raise from
passlib's `verify` propagates. -/
def authenticate (mac : String → String → String)
    (db_by_email : String → Option User) (email password : String) :
    Except Err User :=
  match db_by_email email with
  | none => .error (.unauthorizedError "Incorrect email or password")
  | some user =>
      match verify_password mac password user.hashed_password with
      | .error m => .error (.valueError m)
      | .ok b =>
          if b = false then
            .error (.unauthorizedError "Incorrect email or password")
          else if user.is_active = false then
            .error (.unauthorizedError "User is inactive")
          else .ok user

/-- Token pair response schema (src/schemas/token.py). -/
structure Token where
  access_token : Jwt
  refresh_token : Jwt
  token_type : String := "bearer"
deriving DecidableEq

/-- `AuthService.login`: authenticate, then issue a fresh token pair for the
authenticated user's id. -/
def login (mac : String → String → String) (st : Settings) (key : String)
    (now : Int) (db_by_email : String → Option User) (email password : String) :
    Except Err Token :=
  match authenticate mac db_by_email email password with
  | .error e => .error e
  | .ok user =>
      .ok { access_token := create_access_token st key now user.id none,
            refresh_token := create_refresh_token st key now user.id }

/-- Tail of `AuthService.refresh_token` once the subject id is known: here
`get_by_id` is NOT wrapped in `try`/`except`, so a lookup miss propagates the
service's `NotFoundError("User")`; then the active check and issuance of a
new pair. -/
def refreshLookupIssue (st : Settings) (key : String) (now : Int)
    (db : Int → Option User) (uid : Int) : Except Err Token :=
  match db uid with
  | none => .error (.notFoundError "User")
  | some user =>
      if user.is_active = false then
        .error (.unauthorizedError "User is inactive")
      else
        .ok { access_token := create_access_token st key now user.id none,
              refresh_token := create_refresh_token st key now user.id }

/-- `AuthService.refresh_token` (src/services/auth_service.py): decode;
`if not payload or payload.get("type") != "refresh"` raises
`UnauthorizedError("Invalid refresh token")`; then
`user_id = int(payload.get("sub", 0))` and the unguarded lookup tail. -/
def refresh_token (st : Settings) (key : String) (now : Int)
    (db : Int → Option User) (rt : Jwt) : Except Err Token :=
  match SymmetricJWT.decode key now rt with
  | none => .error (.unauthorizedError "Invalid refresh token")
  | some payload =>
      if payload.type ≠ some "refresh" then
        .error (.unauthorizedError "Invalid refresh token")
      else
        match subjectId payload.sub with
        | .error m => .error (.valueError m)
        | .ok uid => refreshLookupIssue st key now db uid

/-- C3 counterexample: the claim says `verify_password` returns a boolean and
never raises, even on a malformed digest; but on a digest string passlib does
not identify it raises `UnknownHashError` (a `ValueError`) instead of
returning false — shown here at plaintext `"x"` and digest `"notahash"`. -/
theorem c3_malformed_digest_raises :
    verify_password (fun s p => s ++ p) "x" (HashStr.unidentified "notahash")
      = .error "hash could not be identified" := rfl

/-- C3 amended: for every plaintext, `verify_password` returns a boolean on
any digest identified as a bcrypt record (recomputing with the embedded salt
and comparing), and on an unidentifiable digest string it raises passlib's
`UnknownHashError` (a `ValueError`) rather than returning false. -/
theorem c3_verify_behaviour (mac : String → String → String)
    (plain salt digest raw : String) :
    verify_password mac plain (HashStr.bcrypt salt digest)
        = .ok (digest == mac salt plain) ∧
    verify_password mac plain (HashStr.unidentified raw)
        = .error "hash could not be identified" :=
  ⟨rfl, rfl⟩

/-- C4 counterexample: the claim says decode-of-encode fails exactly when
`now ≥ exp`, so a token whose `exp` equals the current time is already
expired; but at `now = exp = 100` the decode still returns the original
claims, because python-jose's check (leeway 0) is `exp < now`. -/
theorem c4_boundary_token_still_accepted :
    (100 : Int) ≥ 100 ∧
    SymmetricJWT.decode "k" 100
        (SymmetricJWT.encode "k" ⟨some "1", some 100, some "access"⟩)
      = some ⟨some "1", some 100, some "access"⟩ := by
  constructor
  · exact le_refl 100
  · rfl

/-- C4 amended: for every claim set with expiry `e`, decoding the encoding
under the same key reports invalid (returns the failure result, never the
original claims) if and only if the current time satisfies `now > e`
(python-jose compares `exp < now` with no leeway); a token whose `exp` equals
the current time is still accepted. -/
theorem c4_expiry_boundary (key : String) (now : Int) (sub ty : Option String)
    (e : Int) :
    SymmetricJWT.decode key now (SymmetricJWT.encode key ⟨sub, some e, ty⟩)
      = (if e < now then none else some ⟨sub, some e, ty⟩) := by
  simp [SymmetricJWT.decode, SymmetricJWT.encode, joseExpired]

/-- C6: for every claim set whose `exp` timestamp lies strictly in the
future, decoding the encoding under the same secret key returns exactly the
original claim set. -/
theorem c6_roundtrip (key : String) (now : Int) (c : Payload) (e : Int)
    (hexp : c.exp = some e) (hfut : now < e) :
    SymmetricJWT.decode key now (SymmetricJWT.encode key c) = some c := by
  simp [SymmetricJWT.decode, SymmetricJWT.encode, joseExpired, hexp]
  omega

/-- C6 witness: a concrete round trip through the codec at `now = 10`,
`exp = 99`. -/
theorem c6_roundtrip_checked :
    SymmetricJWT.decode "k" 10
        (SymmetricJWT.encode "k" ⟨some "1", some 99, some "access"⟩)
      = some ⟨some "1", some 99, some "access"⟩ :=
  c6_roundtrip "k" 10 ⟨some "1", some 99, some "access"⟩ 99 rfl (by decide)

/-- C7: for every bcrypt compression function, plaintext and pair of fresh
salts, verifying a plaintext against its own hash succeeds, and two hash
calls on the same plaintext that draw distinct salts produce distinct digest
strings (the salt is embedded in the output), so hashing is
non-deterministic by design. -/
theorem c7_hash_roundtrip_and_salting (mac : String → String → String)
    (salt1 salt2 p : String) (hsalt : salt1 ≠ salt2) :
    verify_password mac p (get_password_hash mac salt1 p) = .ok true ∧
    get_password_hash mac salt1 p ≠ get_password_hash mac salt2 p := by
  constructor
  · simp [verify_password, CryptContext.verify, get_password_hash,
      CryptContext.hash]
  · intro h
    simp only [get_password_hash, CryptContext.hash, HashStr.bcrypt.injEq] at h
    exact hsalt h.1

/-- C7 witness: the round trip and the salting inequality at a concrete
compression function, salts and plaintext. -/
theorem c7_hash_roundtrip_and_salting_checked :
    verify_password (fun s q => s ++ q) "pw"
        (get_password_hash (fun s q => s ++ q) "saltA" "pw") = .ok true ∧
    get_password_hash (fun s q => s ++ q) "saltA" "pw"
      ≠ get_password_hash (fun s q => s ++ q) "saltB" "pw" :=
  c7_hash_roundtrip_and_salting (fun s q => s ++ q) "saltA" "saltB" "pw"
    (by decide)

/-- C8 counterexample: the claim says an access token issued with a ttl
override carries `exp = now + override`; but the code tests the override with
Python truthiness, so the zero override is treated as absent: at `now = 100`,
override `0`, the payload's exp is `100 + 30 * 60 = 1900`, not `100 + 0`. -/
theorem c8_zero_override_uses_default :
    (build_access_payload ⟨30, 7⟩ 100 7 (some 0)).exp = some 1900 ∧
    (1900 : Int) ≠ 100 + 0 := by
  constructor
  · rfl
  · decide

/-- C8 amended: `create_access_token` encodes exactly
`{sub: str(subject), type: "access", exp: now + override}` when a nonzero
override is given; a zero override is falsy in Python and is treated like no
override, both yielding `exp = now + configured_minutes * 60`; and
`create_refresh_token` encodes exactly
`{sub: str(subject), type: "refresh", exp: now + configured_days * 86400}`. -/
theorem c8_issued_claim_shape (st : Settings) (key : String) (now : Int)
    (subject : Int) (d : Int) (hd : d ≠ 0) :
    create_access_token st key now subject (some d)
        = SymmetricJWT.encode key
            ⟨some (toString subject), some (now + d), some "access"⟩ ∧
    create_access_token st key now subject none
        = SymmetricJWT.encode key
            ⟨some (toString subject),
             some (now + st.access_token_expire_minutes * 60), some "access"⟩ ∧
    create_access_token st key now subject (some 0)
        = SymmetricJWT.encode key
            ⟨some (toString subject),
             some (now + st.access_token_expire_minutes * 60), some "access"⟩ ∧
    create_refresh_token st key now subject
        = SymmetricJWT.encode key
            ⟨some (toString subject),
             some (now + st.refresh_token_expire_days * 86400),
             some "refresh"⟩ := by
  refine ⟨?_, rfl, rfl, rfl⟩
  simp [create_access_token, build_access_payload, hd]

/-- C8 witness: the amended shape at concrete settings, key, time, subject
and override. -/
theorem c8_issued_claim_shape_checked :
    create_access_token ⟨30, 7⟩ "k" 100 7 (some 5)
        = SymmetricJWT.encode "k" ⟨some "7", some 105, some "access"⟩ ∧
    create_access_token ⟨30, 7⟩ "k" 100 7 none
        = SymmetricJWT.encode "k" ⟨some "7", some 1900, some "access"⟩ := by
  have h := c8_issued_claim_shape ⟨30, 7⟩ "k" 100 7 5 (by decide)
  exact ⟨h.1, h.2.1⟩

/-- C1: for every token that decodes successfully, the decoded type claim
gates acceptance — `get_current_user` raises 401 whenever the type is not
`"access"`, and `refresh_token` raises `UnauthorizedError` whenever the type
is not `"refresh"`. -/
theorem c1_kind_enforcement (key : String) (now : Int) (db : Int → Option User)
    (st : Settings) (t : Jwt) (p : Payload)
    (hdec : SymmetricJWT.decode key now t = some p) :
    (p.type ≠ some "access" →
      get_current_user key now db t
        = .error (.httpException 401 "Could not validate credentials")) ∧
    (p.type ≠ some "refresh" →
      refresh_token st key now db t
        = .error (.unauthorizedError "Invalid refresh token")) := by
  constructor
  · intro hty
    simp [get_current_user, hdec, hty]
  · intro hty
    simp [refresh_token, hdec, hty]

/-- C1 witness: a validly signed, unexpired refresh token is rejected by
`get_current_user` with 401, and a validly signed, unexpired access token is
rejected by `refresh_token` with `UnauthorizedError`. -/
theorem c1_kind_enforcement_checked :
    get_current_user "k" 0 (fun _ => none)
        (Jwt.signed ⟨some "1", some 100, some "refresh"⟩ "k")
      = .error (.httpException 401 "Could not validate credentials") ∧
    refresh_token ⟨30, 7⟩ "k" 0 (fun _ => none)
        (Jwt.signed ⟨some "1", some 100, some "access"⟩ "k")
      = .error (.unauthorizedError "Invalid refresh token") := by
  constructor
  · exact (c1_kind_enforcement "k" 0 (fun _ => none) ⟨30, 7⟩
      (Jwt.signed ⟨some "1", some 100, some "refresh"⟩ "k")
      ⟨some "1", some 100, some "refresh"⟩ rfl).1 (by decide)
  · exact (c1_kind_enforcement "k" 0 (fun _ => none) ⟨30, 7⟩
      (Jwt.signed ⟨some "1", some 100, some "access"⟩ "k")
      ⟨some "1", some 100, some "access"⟩ rfl).2 (by decide)

/-- C2, evaluated at the failing input: a validly signed, unexpired refresh
token whose subject id (`5`) matches no stored user makes `refresh_token`
raise the service's `NotFoundError` — a 404-class error, not the
Unauthorized (401) the claim requires, because `AuthService.refresh_token`
does not wrap `get_by_id` in `try`/`except NotFoundError` the way
`get_current_user` does. -/
theorem c2_refresh_unknown_user_not_found_error :
    refresh_token ⟨30, 7⟩ "k" 0 (fun _ => none)
        (Jwt.signed ⟨some "5", some 100, some "refresh"⟩ "k")
      = .error (.notFoundError "User") ∧
    Err.status (.notFoundError "User") = 404 := by
  exact ⟨rfl, rfl⟩

/-- C5: login failures are enumeration-hardened — an unknown email and a
failed password verification produce the identical `UnauthorizedError` with
the identical generic message, and the inactive-account failure can only
arise after the password verified to true. -/
theorem c5_enumeration_hardening (mac : String → String → String)
    (db_by_email : String → Option User) (email password : String) :
    (db_by_email email = none →
      authenticate mac db_by_email email password
        = .error (.unauthorizedError "Incorrect email or password")) ∧
    (∀ u, db_by_email email = some u →
      verify_password mac password u.hashed_password = .ok false →
      authenticate mac db_by_email email password
        = .error (.unauthorizedError "Incorrect email or password")) ∧
    (∀ u, db_by_email email = some u →
      authenticate mac db_by_email email password
        = .error (.unauthorizedError "User is inactive") →
      verify_password mac password u.hashed_password = .ok true) := by
  refine ⟨?_, ?_, ?_⟩
  · intro h
    simp [authenticate, h]
  · intro u hu hv
    simp [authenticate, hu, hv]
  · intro u hu hres
    rcases hveq : verify_password mac password u.hashed_password with m | b
    · exfalso
      simp [authenticate, hu, hveq] at hres
    · cases b with
      | false =>
          exfalso
          simp [authenticate, hu, hveq] at hres
      | true => rfl

/-- C5 witness: with one stored user, an unknown email and a wrong password
for the known email yield the same `UnauthorizedError` with the same generic
message. -/
theorem c5_enumeration_hardening_checked :
    authenticate (fun _ p => p)
        (fun e => if e = "a@b.c" then
            some ⟨1, "a@b.c", HashStr.bcrypt "s" "secret", none, true, false, 0, 0⟩
          else none) "z@b.c" "whatever"
      = .error (.unauthorizedError "Incorrect email or password") ∧
    authenticate (fun _ p => p)
        (fun e => if e = "a@b.c" then
            some ⟨1, "a@b.c", HashStr.bcrypt "s" "secret", none, true, false, 0, 0⟩
          else none) "a@b.c" "wrong"
      = .error (.unauthorizedError "Incorrect email or password") := by
  constructor
  · exact (c5_enumeration_hardening (fun _ p => p)
      (fun e => if e = "a@b.c" then
          some ⟨1, "a@b.c", HashStr.bcrypt "s" "secret", none, true, false, 0, 0⟩
        else none) "z@b.c" "whatever").1 rfl
  · exact (c5_enumeration_hardening (fun _ p => p)
      (fun e => if e = "a@b.c" then
          some ⟨1, "a@b.c", HashStr.bcrypt "s" "secret", none, true, false, 0, 0⟩
        else none) "a@b.c" "wrong").2.1
      ⟨1, "a@b.c", HashStr.bcrypt "s" "secret", none, true, false, 0, 0⟩ rfl rfl

/-- C9: the privilege gate returns the already-resolved principal unchanged
when its superuser flag is true, otherwise fails with the 403 Forbidden
`HTTPException`; every error it can produce carries status 403, never 401. -/
theorem c9_privilege_gate (u : User) :
    (u.is_superuser = true → get_current_active_superuser u = .ok u) ∧
    (u.is_superuser = false →
      get_current_active_superuser u
        = .error (.httpException 403 "Not enough permissions")) ∧
    (∀ e, get_current_active_superuser u = .error e → Err.status e = 403) := by
  refine ⟨?_, ?_, ?_⟩
  · intro h
    simp [get_current_active_superuser, h]
  · intro h
    simp [get_current_active_superuser, h]
  · intro e he
    cases hb : u.is_superuser with
    | true => simp [get_current_active_superuser, hb] at he
    | false =>
        simp [get_current_active_superuser, hb] at he
        simp [← he, Err.status]

/-- C9 witness: the gate passes a superuser through and answers 403 for a
non-superuser. -/
theorem c9_privilege_gate_checked :
    get_current_active_superuser
        ⟨1, "a@b.c", HashStr.bcrypt "s" "d", none, true, true, 0, 0⟩
      = .ok ⟨1, "a@b.c", HashStr.bcrypt "s" "d", none, true, true, 0, 0⟩ ∧
    get_current_active_superuser
        ⟨2, "c@b.c", HashStr.bcrypt "s" "d", none, true, false, 0, 0⟩
      = .error (.httpException 403 "Not enough permissions") :=
  ⟨(c9_privilege_gate _).1 rfl, (c9_privilege_gate _).2.1 rfl⟩

/-- C10: for a successfully decoded token of the accepted kind, an absent
`sub` claim makes both `get_current_user` and `refresh_token` silently
substitute subject id 0 and proceed to the user-lookup stage, while a `sub`
that is not a Python integer literal makes `int()` raise `ValueError`, which
surfaces as a 500-class error outside the 401/403 taxonomy. -/
theorem c10_subject_parsing (key : String) (now : Int) (db : Int → Option User)
    (st : Settings) (t : Jwt) (p : Payload)
    (hdec : SymmetricJWT.decode key now t = some p) :
    (p.type = some "access" → p.sub = none →
      get_current_user key now db t = lookupActiveUser db 0) ∧
    (p.type = some "refresh" → p.sub = none →
      refresh_token st key now db t = refreshLookupIssue st key now db 0) ∧
    (∀ s m, p.type = some "access" → p.sub = some s →
      pythonInt s = .error m →
      get_current_user key now db t = .error (.valueError m) ∧
      Err.status (.valueError m) ≠ 401 ∧ Err.status (.valueError m) ≠ 403) ∧
    (∀ s m, p.type = some "refresh" → p.sub = some s →
      pythonInt s = .error m →
      refresh_token st key now db t = .error (.valueError m)) := by
  refine ⟨?_, ?_, ?_, ?_⟩
  · intro hty hsub
    simp [get_current_user, hdec, hty, subjectId, hsub]
  · intro hty hsub
    simp [refresh_token, hdec, hty, subjectId, hsub]
  · intro s m hty hsub hparse
    refine ⟨?_, by simp [Err.status], by simp [Err.status]⟩
    simp [get_current_user, hdec, hty, subjectId, hsub, hparse]
  · intro s m hty hsub hparse
    simp [refresh_token, hdec, hty, subjectId, hsub, hparse]

/-- C10 witness: an access token without a `sub` claim reaches the lookup
stage with id 0, and one whose `sub` is `"abc"` fails with the `ValueError`
from `int()`. -/
theorem c10_subject_parsing_checked :
    get_current_user "k" 0 (fun _ => none)
        (Jwt.signed ⟨none, some 100, some "access"⟩ "k")
      = lookupActiveUser (fun _ => none) 0 ∧
    get_current_user "k" 0 (fun _ => none)
        (Jwt.signed ⟨some "abc", some 100, some "access"⟩ "k")
      = .error (.valueError "invalid literal for int() with base 10: abc") := by
  constructor
  · exact (c10_subject_parsing "k" 0 (fun _ => none) ⟨30, 7⟩
      (Jwt.signed ⟨none, some 100, some "access"⟩ "k")
      ⟨none, some 100, some "access"⟩ rfl).1 rfl rfl
  · exact ((c10_subject_parsing "k" 0 (fun _ => none) ⟨30, 7⟩
      (Jwt.signed ⟨some "abc", some 100, some "access"⟩ "k")
      ⟨some "abc", some 100, some "access"⟩ rfl).2.2.1 "abc"
      "invalid literal for int() with base 10: abc" rfl rfl rfl).1

end App
